import Mathlib

set_option autoImplicit false

namespace EcomChatbot

/-- A chat message, modelling the `role` and `content` fields of
`ChatMessage` (src/src/database/models.py) that the routing and
extraction code reads. -/
structure ChatMsg where
  role : String
  content : String
  deriving Repr, DecidableEq

/-- The apostrophe character, used inside several intent keywords. -/
def apos : String := String.singleton (Char.ofNat 39)

/-- Python `str.lower()` as a character list (ASCII model). -/
def pyLower (s : String) : List Char :=
  s.toList.map Char.toLower

/-- Python substring containment `pat in s`, over character lists. -/
def charsContain (s pat : List Char) : Bool :=
  s.tails.any (fun t => pat.isPrefixOf t)

/-- Python slice `l[-n:]`: the last `n` elements of `l` (all of `l` when
`l` is shorter). -/
def lastN {α : Type} (n : Nat) (l : List α) : List α :=
  l.drop (l.length - n)

/-- Keyword list of `OrderAgent.detect_order_intent`
(src/src/agents/order_agent.py, lines 47-51). -/
def order_keywords : List String :=
  ["buy", "purchase", "order", "confirm", "take it", "add to cart",
   "checkout", "place order", "i want", "get me", "i" ++ apos ++ "ll take",
   "yes please", "proceed", "continue"]

/-- `OrderAgent.detect_order_intent`: case-insensitive keyword containment. -/
def detect_order_intent (message : String) : Bool :=
  order_keywords.any (fun k => charsContain (pyLower message) k.toList)

/-- Indicator token list of `ConversationOrchestrator._has_product_context`
(src/src/agents/orchestrator.py, lines 40-48). -/
def product_indicators : List String :=
  ["price", "$", "product", "available", "stock", "category", "spec"]

/-- `ConversationOrchestrator._has_product_context`: some of the last 5
history turns contains a product indicator token (case-insensitive). -/
def has_product_context (chat_history : List ChatMsg) : Bool :=
  if chat_history.isEmpty then false
  else (lastN 5 chat_history).any (fun m =>
    product_indicators.any (fun w => charsContain (pyLower m.content) w.toList))

/-- Phrase list of `RAGAgent.should_handoff_to_order_agent`
(src/src/agents/rag_agent.py, lines 239-254). -/
def order_intent_phrases : List String :=
  ["i" ++ apos ++ "ll take it", "i" ++ apos ++ "ll buy", "i want to buy",
   "purchase", "order", "add to cart", "checkout", "place order", "confirm",
   "yes please", "i want", "get me", "buy now", "i need"]

/-- Context word list checked inside `RAGAgent.should_handoff_to_order_agent`
(src/src/agents/rag_agent.py, line 266). -/
def handoff_context_words : List String := ["price", "product", "$", "available"]

/-- `RAGAgent.should_handoff_to_order_agent`: an intent phrase occurs in the
message and one of the last 5 turns contains a context word. -/
def should_handoff_to_order_agent (message : String) (chat_history : List ChatMsg) : Bool :=
  order_intent_phrases.any (fun p =>
    charsContain (pyLower message) p.toList &&
    (lastN 5 chat_history).any (fun m =>
      handoff_context_words.any (fun w => charsContain (pyLower m.content) w.toList)))

/-- The four characters `ord-`. -/
def ordDashChars : List Char := ['o', 'r', 'd', '-']

/-- The character class `[a-z0-9]`. -/
def isLowerAlnum (c : Char) : Bool :=
  c.isDigit || (97 ≤ c.toNat && c.toNat ≤ 122)

/-- Match of the first alternative `ord-\d{8}-[a-z0-9]{8}` of the
orchestrator's order-id regular expression at the head of `t`. -/
def ordIdAlt1 (t : List Char) : Bool :=
  ordDashChars.isPrefixOf t &&
  ((t.drop 4).take 8).length == 8 && ((t.drop 4).take 8).all Char.isDigit &&
  ['-'].isPrefixOf (t.drop 12) &&
  ((t.drop 13).take 8).length == 8 && ((t.drop 13).take 8).all isLowerAlnum

/-- Match of the second alternative `#ord[\d-]+` at the head of `t`. -/
def ordIdAlt2 : List Char → Bool
  | '#' :: 'o' :: 'r' :: 'd' :: c :: _ => c.isDigit || c == '-'
  | _ => false

/-- Python `re.search(r"ord-\d{8}-[a-z0-9]{8}|#ord[\d-]+", s)` viewed as a
Boolean: some position of `s` starts a match of one of the alternatives. -/
def ordIdSearch (s : List Char) : Bool :=
  s.tails.any (fun t => ordIdAlt1 t || ordIdAlt2 t)

/-- Vocabulary list guarding the regular-expression check in
`ConversationOrchestrator.determine_agent` (src/src/agents/orchestrator.py,
line 24). -/
def order_id_patterns : List String := ["order", "ord-", "#ord", "status"]

/-- `ConversationOrchestrator.determine_agent` (src/src/agents/orchestrator.py,
lines 15-32). -/
def determine_agent (message : String) (chat_history : List ChatMsg) : String :=
  if detect_order_intent message && has_product_context chat_history then "order_agent"
  else if should_handoff_to_order_agent message chat_history then "order_agent"
  else if order_id_patterns.any (fun p => charsContain (pyLower message) p.toList)
          && ordIdSearch (pyLower message) then "order_agent"
  else "rag_agent"

/-- The shape named by the spec: `ORD-` + 8 digits + `-` + 8 alphanumerics,
case-insensitive, anywhere in the message (lower-cased before matching, as
the code lower-cases the message). -/
def containsOrderIdShape (message : String) : Bool :=
  (pyLower message).tails.any ordIdAlt1

/-- Every context word of the RAG handoff check is also an orchestrator
product indicator. -/
theorem mem_indicators_of_mem_handoff_words :
    ∀ w ∈ handoff_context_words, w ∈ product_indicators := by decide

/-- If some of the last 5 turns contains a RAG handoff context word, the
orchestrator sees product context. -/
theorem has_product_context_of_handoff_context (chat_history : List ChatMsg)
    (h : ((lastN 5 chat_history).any (fun m =>
      handoff_context_words.any (fun w => charsContain (pyLower m.content) w.toList))) = true) :
    has_product_context chat_history = true := by
  rcases List.any_eq_true.mp h with ⟨m, hm, hw⟩
  rcases List.any_eq_true.mp hw with ⟨w, hwmem, hc⟩
  cases chat_history with
  | nil => simp [lastN] at hm
  | cons a l =>
    unfold has_product_context
    simp only [List.isEmpty_cons, if_false, Bool.false_eq_true]
    exact List.any_eq_true.mpr ⟨m, hm,
      List.any_eq_true.mpr ⟨w, mem_indicators_of_mem_handoff_words w hwmem, hc⟩⟩

/-- Without orchestrator product context the RAG handoff predicate is false:
its context-word check is over the same last-5 window with a subset of the
indicator tokens. -/
theorem handoff_false_of_no_context (message : String) (chat_history : List ChatMsg)
    (h : has_product_context chat_history = false) :
    should_handoff_to_order_agent message chat_history = false := by
  cases hs : should_handoff_to_order_agent message chat_history with
  | false => rfl
  | true =>
    exfalso
    rcases List.any_eq_true.mp hs with ⟨p, _, hp⟩
    simp only [Bool.and_eq_true] at hp
    rcases hp with ⟨_, hinner⟩
    rw [has_product_context_of_handoff_context chat_history hinner] at h
    exact absurd h (by simp)

/-- A true RAG handoff predicate forces routing to the order agent. -/
theorem route_order_of_handoff (message : String) (chat_history : List ChatMsg)
    (h : should_handoff_to_order_agent message chat_history = true) :
    determine_agent message chat_history = "order_agent" := by
  unfold determine_agent
  rw [h]
  split <;> rfl

/-- C1: a purchase-intent message with product context in the last 5 turns
routes to the order agent — both through the order agent's keyword detector
paired with the orchestrator's product indicators, and through the RAG
agent's handoff predicate; and absent product context, a purchase-intent
message with no order-id match yields the RAG (product) agent. -/
theorem intent_routing_correct (message : String) (chat_history : List ChatMsg) :
    (detect_order_intent message = true → has_product_context chat_history = true →
      determine_agent message chat_history = "order_agent") ∧
    (should_handoff_to_order_agent message chat_history = true →
      determine_agent message chat_history = "order_agent") ∧
    (has_product_context chat_history = false →
      detect_order_intent message = true →
      ordIdSearch (pyLower message) = false →
      determine_agent message chat_history = "rag_agent") := by
  refine ⟨?_, route_order_of_handoff message chat_history, ?_⟩
  · intro h1 h2
    unfold determine_agent
    rw [h1, h2]
    rfl
  · intro hctx _ hregex
    unfold determine_agent
    rw [hctx, handoff_false_of_no_context message chat_history hctx, hregex]
    simp

/-- Witness for C1 at concrete inputs: each hypothesis is discharged by
evaluation. -/
theorem intent_routing_correct_witness :
    determine_agent "buy" [⟨"assistant", "the price is $999"⟩] = "order_agent" ∧
    determine_agent "i need it" [⟨"assistant", "a fine product"⟩] = "order_agent" ∧
    determine_agent "please buy" [⟨"assistant", "hello"⟩] = "rag_agent" :=
  ⟨(intent_routing_correct "buy" [⟨"assistant", "the price is $999"⟩]).1
      (by decide) (by decide),
   (intent_routing_correct "i need it" [⟨"assistant", "a fine product"⟩]).2.1
      (by decide),
   (intent_routing_correct "please buy" [⟨"assistant", "hello"⟩]).2.2
      (by decide) (by decide) (by decide)⟩

/-- C8: a message containing an order-id of shape `ORD-` + 8 digits + `-` +
8 alphanumerics (case-insensitive) anywhere routes to the order agent, for
every chat history and even with zero purchase-intent keywords. -/
theorem order_id_shape_routes_order (message : String) (chat_history : List ChatMsg)
    (h : containsOrderIdShape message = true) :
    determine_agent message chat_history = "order_agent" := by
  rcases List.any_eq_true.mp h with ⟨t, ht, halt⟩
  have hpre : ordDashChars.isPrefixOf t = true := by
    unfold ordIdAlt1 at halt
    simp only [Bool.and_eq_true] at halt
    exact halt.1.1.1.1.1
  have hvocab : order_id_patterns.any
      (fun p => charsContain (pyLower message) p.toList) = true := by
    refine List.any_eq_true.mpr ⟨"ord-", by decide, ?_⟩
    exact List.any_eq_true.mpr ⟨t, ht, hpre⟩
  have hsearch : ordIdSearch (pyLower message) = true :=
    List.any_eq_true.mpr ⟨t, ht, by rw [halt]; rfl⟩
  unfold determine_agent
  rw [hvocab, hsearch]
  split
  · rfl
  · split <;> rfl

/-- Witness for C8: a concrete message carrying an order-id shape. -/
theorem order_id_shape_routes_order_witness :
    determine_agent "Track ORD-20240101-DeadBee7 for me" [⟨"user", "hi"⟩] = "order_agent" :=
  order_id_shape_routes_order "Track ORD-20240101-DeadBee7 for me" [⟨"user", "hi"⟩]
    (by decide)

/-- Characters of the class `[\d,]` in the price pattern. -/
def isPriceBodyChar (c : Char) : Bool := c.isDigit || c == ','

/-- Greedy match of `\$[\d,]+(?:\.\d{2})?` at the head of `cs`, returning the
matched characters after the dollar sign. -/
def priceMatchAt : List Char → Option (List Char)
  | '$' :: rest =>
    let body := rest.takeWhile isPriceBodyChar
    if body.isEmpty then none
    else
      match rest.drop body.length with
      | '.' :: a :: b :: _ =>
        if a.isDigit && b.isDigit then some (body ++ ['.', a, b]) else some body
      | _ => some body
  | _ => none

/-- The leftmost price match of a string: `re.findall(...)[0]` of the price
pattern. -/
def firstPriceMatch : List Char → Option (List Char)
  | [] => none
  | c :: rest =>
    match priceMatchAt (c :: rest) with
    | some m => some m
    | none => firstPriceMatch rest

/-- Numeric value of a digit string. -/
def digitsVal (ds : List Char) : Nat :=
  ds.foldl (fun n c => n * 10 + (c.toNat - 48)) 0

/-- Python `float(match.replace("$", "").replace(",", ""))` on a price match,
in cents; `none` models the caught `ValueError`. -/
def parsePriceCents (m : List Char) : Option Nat :=
  let noCommas := m.filter (fun c => !(c == ','))
  if noCommas.isEmpty then none
  else
    let intDigits := noCommas.takeWhile Char.isDigit
    match noCommas.drop intDigits.length with
    | [] => some (digitsVal intDigits * 100)
    | ['.', a, b] => some (digitsVal intDigits * 100 + (a.toNat - 48) * 10 + (b.toNat - 48))
    | _ => none

/-- Python truthiness of the running price: falsy when unset or `0.0`. -/
def priceFalsy : Option Nat → Bool
  | none => true
  | some v => v == 0

/-- One turn of the price scan of `OrderAgent.extract_order_context`
(src/src/agents/order_agent.py, lines 93-100): the first match of the turn is
parsed only while the running price is falsy; a parse failure is swallowed. -/
def priceStep (price : Option Nat) (m : ChatMsg) : Option Nat :=
  match firstPriceMatch m.content.toList with
  | none => price
  | some mt =>
    if priceFalsy price then
      match parsePriceCents mt with
      | some v => some v
      | none => price
    else price

/-- The resolved price (in cents) of `OrderAgent.extract_order_context`:
the price scan folded over the last 10 turns. -/
def extract_price (chat_history : List ChatMsg) : Option Nat :=
  (lastN 10 chat_history).foldl priceStep none

/-- The first currency-shaped match across the scanned turns. -/
def firstMatchAcrossTurns (chat_history : List ChatMsg) : Option (List Char) :=
  (lastN 10 chat_history).findSome? (fun m => firstPriceMatch m.content.toList)

/-- A non-falsy running price is never changed by a later turn. -/
theorem priceStep_stable (acc : Option Nat) (m : ChatMsg)
    (h : priceFalsy acc = false) : priceStep acc m = acc := by
  unfold priceStep
  cases firstPriceMatch m.content.toList with
  | none => rfl
  | some mt => rw [h]; rfl

/-- A non-falsy running price survives any remaining turns. -/
theorem foldl_priceStep_stable (l : List ChatMsg) (acc : Option Nat)
    (h : priceFalsy acc = false) : l.foldl priceStep acc = acc := by
  induction l with
  | nil => rfl
  | cons a t ih => rw [List.foldl_cons, priceStep_stable acc a h]; exact ih

/-- Core of the amended C4: when the first match across the turns parses to a
nonzero value, the fold resolves to exactly that value. -/
theorem foldl_priceStep_first (l : List ChatMsg) (mt : List Char) (v : Nat)
    (hfind : l.findSome? (fun m => firstPriceMatch m.content.toList) = some mt)
    (hparse : parsePriceCents mt = some v) (hv : v ≠ 0) :
    l.foldl priceStep none = some v := by
  induction l with
  | nil => simp [List.findSome?] at hfind
  | cons a t ih =>
    rw [List.foldl_cons]
    cases ha : firstPriceMatch a.content.toList with
    | none =>
      replace ha : firstPriceMatch a.content.data = none := ha
      have hstep : priceStep none a = none := by simp [priceStep, ha]
      rw [hstep]
      apply ih
      simpa [List.findSome?, ha] using hfind
    | some mt2 =>
      replace ha : firstPriceMatch a.content.data = some mt2 := ha
      have hmt : mt2 = mt := by
        simpa [List.findSome?, ha] using hfind
      subst hmt
      have hstep : priceStep none a = some v := by
        simp [priceStep, ha, priceFalsy, hparse]
      rw [hstep]
      exact foldl_priceStep_stable t (some v) (by simp [priceFalsy, hv])

/-- C4 amended: if the first currency-shaped match across the scanned turns
parses to a nonzero value, the resolved price is exactly that value and no
later mention overrides it; a `$0` mention or an unparsable match (all
commas) can be superseded. -/
theorem price_first_nonzero_match_wins (chat_history : List ChatMsg)
    (mt : List Char) (v : Nat)
    (hfind : firstMatchAcrossTurns chat_history = some mt)
    (hparse : parsePriceCents mt = some v) (hv : v ≠ 0) :
    extract_price chat_history = some v :=
  foldl_priceStep_first _ mt v hfind hparse hv

/-- Witness for the amended C4 at a concrete transcript. -/
theorem price_first_nonzero_match_wins_witness :
    extract_price [⟨"assistant", "it is $7 now"⟩, ⟨"assistant", "or $9"⟩] = some 700 :=
  price_first_nonzero_match_wins
    [⟨"assistant", "it is $7 now"⟩, ⟨"assistant", "or $9"⟩]
    ['7'] 700 (by decide) (by decide) (by decide)

/-- C4 counterexample: the first currency-shaped match across the scanned
turns is `$0`, whose value `0.0` is falsy in Python, so the later `$5`
overwrites it — the resolved price is not the first match's value. -/
theorem price_first_match_counterexample :
    firstMatchAcrossTurns [⟨"assistant", "A $0"⟩, ⟨"assistant", "B $5"⟩] = some ['0'] ∧
    parsePriceCents ['0'] = some 0 ∧
    extract_price [⟨"assistant", "A $0"⟩, ⟨"assistant", "B $5"⟩] = some 500 ∧
    extract_price [⟨"assistant", "A $0"⟩, ⟨"assistant", "B $5"⟩] ≠ some 0 := by
  refine ⟨by decide, by decide, by decide, by decide⟩

/-- Whitespace characters matched by `\s` (ASCII model). -/
def isSpaceChar (c : Char) : Bool :=
  c == ' ' || c == '\t' || c == '\n' || c == '\r' || c.toNat == 11 || c.toNat == 12

/-- Length of a match of the alternation `x|×|pieces?|units?|items?` at the
head of the list, if any; alternatives tried in pattern order, `s?` greedy. -/
def quantUnitLen : List Char → Option Nat
  | 'x' :: _ => some 1
  | '×' :: _ => some 1
  | 'p' :: 'i' :: 'e' :: 'c' :: 'e' :: 's' :: _ => some 6
  | 'p' :: 'i' :: 'e' :: 'c' :: 'e' :: _ => some 5
  | 'u' :: 'n' :: 'i' :: 't' :: 's' :: _ => some 5
  | 'u' :: 'n' :: 'i' :: 't' :: _ => some 4
  | 'i' :: 't' :: 'e' :: 'm' :: 's' :: _ => some 5
  | 'i' :: 't' :: 'e' :: 'm' :: _ => some 4
  | _ => none

/-- Match of `(\d+)\s*(?:x|×|pieces?|units?|items?)` at the head of `cs`:
captured number and total match length. -/
def quantAt1 (cs : List Char) : Option (Nat × Nat) :=
  let ds := cs.takeWhile Char.isDigit
  if ds.isEmpty then none
  else
    let rest := cs.drop ds.length
    let sp := rest.takeWhile isSpaceChar
    match quantUnitLen (rest.drop sp.length) with
    | some ul => some (digitsVal ds, ds.length + sp.length + ul)
    | none => none

/-- Match of `quantity[:\s]*(\d+)` at the head of `cs`. -/
def quantAt2 : List Char → Option (Nat × Nat)
  | 'q' :: 'u' :: 'a' :: 'n' :: 't' :: 'i' :: 't' :: 'y' :: rest =>
    let sep := rest.takeWhile (fun c => c == ':' || isSpaceChar c)
    let ds := (rest.drop sep.length).takeWhile Char.isDigit
    if ds.isEmpty then none
    else some (digitsVal ds, 8 + sep.length + ds.length)
  | _ => none

/-- Match of `(\d+)\s*of\s+` at the head of `cs`. -/
def quantAt3 (cs : List Char) : Option (Nat × Nat) :=
  let ds := cs.takeWhile Char.isDigit
  if ds.isEmpty then none
  else
    let rest := cs.drop ds.length
    let sp := rest.takeWhile isSpaceChar
    match rest.drop sp.length with
    | 'o' :: 'f' :: rest2 =>
      let sp2 := rest2.takeWhile isSpaceChar
      if sp2.isEmpty then none
      else some (digitsVal ds, ds.length + sp.length + 2 + sp2.length)
    | _ => none

/-- Match of the `<word>\s+(\d+)` patterns (`take`, `want`, `buy`) at the
head of `cs`. -/
def quantWordAt (word : List Char) (cs : List Char) : Option (Nat × Nat) :=
  if word.isPrefixOf cs then
    let rest := cs.drop word.length
    let sp := rest.takeWhile isSpaceChar
    if sp.isEmpty then none
    else
      let ds := (rest.drop sp.length).takeWhile Char.isDigit
      if ds.isEmpty then none
      else some (digitsVal ds, word.length + sp.length + ds.length)
  else none

/-- Fuelled worker for the capture scan; each step consumes at least one
character, so fuel equal to the list length never runs out. -/
def scanCapturesAux (matchAt : List Char → Option (Nat × Nat)) :
    Nat → List Char → List Nat
  | 0, _ => []
  | _, [] => []
  | fuel + 1, c :: rest =>
    match matchAt (c :: rest) with
    | some (v, len) => v :: scanCapturesAux matchAt fuel (rest.drop (len - 1))
    | none => scanCapturesAux matchAt fuel rest

/-- Python `re.findall` capture scan: try the matcher at every position,
resume after each non-overlapping match. -/
def scanCaptures (matchAt : List Char → Option (Nat × Nat)) (cs : List Char) : List Nat :=
  scanCapturesAux matchAt cs.length cs

/-- All quantity candidates of one message: the six patterns of
`OrderAgent.extract_order_context` applied to the lower-cased content, in
pattern order (src/src/agents/order_agent.py, lines 102-120). -/
def quantityCandidates (content : String) : List Nat :=
  let cs := pyLower content
  scanCaptures quantAt1 cs ++ scanCaptures quantAt2 cs ++ scanCaptures quantAt3 cs ++
  scanCaptures (quantWordAt ['t', 'a', 'k', 'e']) cs ++
  scanCaptures (quantWordAt ['w', 'a', 'n', 't']) cs ++
  scanCaptures (quantWordAt ['b', 'u', 'y']) cs

/-- The `quantities_mentioned` list of `extract_order_context`: candidates
accepted only in `[1, 100]`, over the last 10 turns. -/
def quantities_mentioned (chat_history : List ChatMsg) : List Nat :=
  (lastN 10 chat_history).flatMap
    (fun m => (quantityCandidates m.content).filter (fun q => 1 ≤ q && q ≤ 100))

/-- The resolved quantity: the most recent mention, default 1. -/
def extract_quantity (chat_history : List ChatMsg) : Nat :=
  (quantities_mentioned chat_history).getLastD 1

/-- The `getLastD` of a nonempty list is one of its elements. -/
theorem getLastD_mem {α : Type} (a : α) (l : List α) (d : α) :
    (a :: l).getLastD d ∈ a :: l := by
  induction l generalizing a d with
  | nil => simp [List.getLastD]
  | cons b t ih =>
    rw [List.getLastD_cons]
    exact List.mem_cons_of_mem a (ih b a)

/-- C5: the resolved quantity is always in `[1, 100]`, and it is exactly 1
when the scanned turns contain no valid quantity mention. -/
theorem quantity_in_range (chat_history : List ChatMsg) :
    (1 ≤ extract_quantity chat_history ∧ extract_quantity chat_history ≤ 100) ∧
    (quantities_mentioned chat_history = [] → extract_quantity chat_history = 1) := by
  constructor
  · cases hq : quantities_mentioned chat_history with
    | nil => simp [extract_quantity, hq, List.getLastD]
    | cons a t =>
      have hmem : (quantities_mentioned chat_history).getLastD 1
          ∈ quantities_mentioned chat_history := by
        rw [hq]; exact getLastD_mem a t 1
      rcases List.mem_flatMap.mp hmem with ⟨m, _, hx⟩
      have hrange := List.of_mem_filter hx
      simp only [Bool.and_eq_true, decide_eq_true_eq] at hrange
      exact hrange
  · intro hq
    simp [extract_quantity, hq, List.getLastD]

/-- Witness for C5: the empty transcript has no mention and resolves to 1. -/
theorem quantity_in_range_witness :
    quantities_mentioned [] = [] ∧ extract_quantity [] = 1 :=
  ⟨rfl, (quantity_in_range []).2 rfl⟩

example : quantityCandidates "I will take 3 units of it" = [3, 3] := by decide
example : quantityCandidates "quantity: 7" = [7] := by decide
example : extract_quantity [⟨"user", "i want 250 units"⟩] = 1 := by decide
example : extract_quantity [⟨"user", "take 2, no, take 5"⟩] = 5 := by decide

/-- The `OrderStatus` enumeration (src/src/database/models.py, lines 10-18). -/
inductive OrderStatus where
  | pending
  | confirmed
  | processing
  | shipped
  | delivered
  | cancelled
  deriving Repr, DecidableEq, BEq

/-- The `.value` string of an `OrderStatus`. -/
def statusValue : OrderStatus → String
  | .pending => "pending"
  | .confirmed => "confirmed"
  | .processing => "processing"
  | .shipped => "shipped"
  | .delivered => "delivered"
  | .cancelled => "cancelled"

/-- A stored order row: the fields of `OrderTable` that `cancel_order`
reads or writes (src/src/database/database.py). -/
structure StoredOrder where
  order_id : String
  product_name : String
  quantity : Nat
  status : OrderStatus
  deriving Repr, DecidableEq

/-- The order table, keyed by `order_id`. -/
abbrev OrderStore := List StoredOrder

/-- `DatabaseManager.get_order`: the first row with the given id. -/
def get_order (store : OrderStore) (order_id : String) : Option StoredOrder :=
  store.find? (fun o => o.order_id == order_id)

/-- `DatabaseManager.update_order_status`: `false` when the id is absent,
otherwise rewrite the matching row's status. -/
def update_order_status (store : OrderStore) (order_id : String) (st : OrderStatus) :
    Bool × OrderStore :=
  match get_order store order_id with
  | none => (false, store)
  | some _ =>
    (true, store.map (fun o =>
      if o.order_id == order_id then { o with status := st } else o))

/-- Result dictionary of `cancel_order`; absent keys are `none`. -/
structure CancelResult where
  success : Bool
  error : Option String := none
  order_id : Option String := none
  status : Option String := none
  reason : Option String := none
  message : String
  deriving Repr, DecidableEq

/-- `cancel_order` (src/src/functions/order_functions.py, lines 189-239),
returning the result dictionary and the store after the call. -/
def cancel_order (store : OrderStore) (order_id : String) (reason : Option String) :
    CancelResult × OrderStore :=
  match get_order store order_id with
  | none =>
    ({ success := false,
       error := some ("Order with ID " ++ apos ++ order_id ++ apos ++ " not found"),
       message := "Could not find order " ++ order_id ++ " to cancel." }, store)
  | some o =>
    if o.status = .shipped ∨ o.status = .delivered ∨ o.status = .cancelled then
      ({ success := false,
         error := some ("Order " ++ order_id ++ " cannot be cancelled (current status: "
           ++ statusValue o.status ++ ")"),
         message := "Order #" ++ order_id ++ " cannot be cancelled because it is already "
           ++ statusValue o.status ++ "." }, store)
    else
      match update_order_status store order_id .cancelled with
      | (false, store2) =>
        ({ success := false,
           error := some ("Failed to cancel order " ++ order_id),
           message := "There was an error cancelling order " ++ order_id
             ++ ". Please try again." }, store2)
      | (true, store2) =>
        ({ success := true, order_id := some order_id, status := some "cancelled",
           reason := reason,
           message := "Order #" ++ order_id ++ " has been cancelled successfully."
             ++ (match reason with
                 | some r => if r.isEmpty then "" else " Reason: " ++ r
                 | none => "") }, store2)

/-- C6: cancelling an order whose stored status is `shipped` returns a
structured failure with an error message, and the store — hence the stored
status — is unchanged: no status update is performed. -/
theorem cancel_shipped_order_fails (store : OrderStore) (order_id : String)
    (reason : Option String) (o : StoredOrder)
    (hget : get_order store order_id = some o) (hst : o.status = .shipped) :
    (cancel_order store order_id reason).1.success = false ∧
    (cancel_order store order_id reason).1.error.isSome = true ∧
    (cancel_order store order_id reason).2 = store ∧
    get_order (cancel_order store order_id reason).2 order_id = some o := by
  simp only [cancel_order, hget, hst]
  rw [if_pos (Or.inl trivial)]
  exact ⟨rfl, rfl, rfl, hget⟩

/-- Witness for C6 at a concrete one-row store. -/
theorem cancel_shipped_order_fails_witness :
    (cancel_order [⟨"ORD-20240101-AAAAAAAA", "Phone", 1, .shipped⟩]
        "ORD-20240101-AAAAAAAA" none).1.success = false ∧
    (cancel_order [⟨"ORD-20240101-AAAAAAAA", "Phone", 1, .shipped⟩]
        "ORD-20240101-AAAAAAAA" none).1.error.isSome = true ∧
    (cancel_order [⟨"ORD-20240101-AAAAAAAA", "Phone", 1, .shipped⟩]
        "ORD-20240101-AAAAAAAA" none).2
      = [⟨"ORD-20240101-AAAAAAAA", "Phone", 1, .shipped⟩] ∧
    get_order (cancel_order [⟨"ORD-20240101-AAAAAAAA", "Phone", 1, .shipped⟩]
        "ORD-20240101-AAAAAAAA" none).2 "ORD-20240101-AAAAAAAA"
      = some ⟨"ORD-20240101-AAAAAAAA", "Phone", 1, .shipped⟩ :=
  cancel_shipped_order_fails [⟨"ORD-20240101-AAAAAAAA", "Phone", 1, .shipped⟩]
    "ORD-20240101-AAAAAAAA" none ⟨"ORD-20240101-AAAAAAAA", "Phone", 1, .shipped⟩
    (by decide) rfl

/-- The fields of a validated `OrderModel` (src/src/database/models.py,
lines 51-80); prices are modelled as rationals. -/
structure OrderModel where
  order_id : String
  product_name : String
  product_id : Option String := none
  quantity : Int
  unit_price : ℚ
  total_price : ℚ
  status : OrderStatus := .pending
  deriving Repr, DecidableEq

/-- Pydantic construction of `OrderModel`: the field constraints in
declaration order (`min_length=1` on the name, `gt=0` on quantity and on
both prices), then the `validate_total_price` validator, which tolerates a
discrepancy of at most `0.01` (src/src/database/models.py, lines 67-75). -/
def mkOrderModel (order_id product_name : String) (product_id : Option String)
    (quantity : Int) (unit_price total_price : ℚ) (status : OrderStatus) :
    Except String OrderModel :=
  if product_name.length < 1 then
    .error "product_name: ensure this value has at least 1 characters"
  else if quantity ≤ 0 then
    .error "quantity: ensure this value is greater than 0"
  else if unit_price ≤ 0 then
    .error "unit_price: ensure this value is greater than 0"
  else if total_price ≤ 0 then
    .error "total_price: ensure this value is greater than 0"
  else if 1 / 100 < |total_price - (quantity : ℚ) * unit_price| then
    .error "Total price must equal quantity × unit_price"
  else
    .ok { order_id := order_id, product_name := product_name,
          product_id := product_id, quantity := quantity,
          unit_price := unit_price, total_price := total_price,
          status := status }

/-- C7 counterexample: with a valid name, quantity 1 and unit price `0.01`,
the total `0.0` differs from `quantity × unit_price` by exactly `0.01` —
within the stated tolerance — yet construction is rejected, because
`total_price` also carries a `gt=0` field constraint. -/
theorem order_total_tolerance_counterexample :
    1 ≤ ("a" : String).length ∧ (0 : Int) < 1 ∧ (0 : ℚ) < 1 / 100 ∧
    |(0 : ℚ) - (1 : ℚ) * (1 / 100)| ≤ 1 / 100 ∧
    (mkOrderModel "o1" "a" none 1 (1 / 100) 0 .pending).isOk = false := by
  refine ⟨by decide, by decide, by norm_num, ?_, ?_⟩
  · rw [zero_sub, one_mul, abs_neg, abs_of_nonneg (by norm_num : (0 : ℚ) ≤ 1 / 100)]
  · simp only [mkOrderModel]
    rw [if_neg (by decide : ¬ ("a" : String).length < 1),
      if_neg (by norm_num : ¬ ((1 : Int) ≤ 0)),
      if_neg (by norm_num : ¬ ((1 / 100 : ℚ) ≤ 0)),
      if_pos (le_refl (0 : ℚ))]
    rfl

/-- C7 amended: under a non-empty name, positive quantity and positive unit
price, construction succeeds exactly when the total is positive and within
`0.01` of `quantity × unit_price`; any larger mismatch is rejected. -/
theorem order_total_tolerance (order_id product_name : String)
    (product_id : Option String) (quantity : Int) (unit_price total_price : ℚ)
    (status : OrderStatus)
    (hname : 1 ≤ product_name.length) (hq : 0 < quantity) (hu : 0 < unit_price) :
    (mkOrderModel order_id product_name product_id quantity unit_price
        total_price status).isOk = true
      ↔ (0 < total_price ∧
         |total_price - (quantity : ℚ) * unit_price| ≤ 1 / 100) := by
  unfold mkOrderModel
  split_ifs with h1 h2 h3 h4 h5
  · exfalso; omega
  · exfalso; omega
  · exact absurd hu (not_lt.mpr h3)
  · constructor
    · intro h; exact absurd h (by simp [Except.isOk, Except.toBool])
    · rintro ⟨hp, -⟩; exact absurd hp (not_lt.mpr h4)
  · constructor
    · intro h; exact absurd h (by simp [Except.isOk, Except.toBool])
    · rintro ⟨-, hle⟩; exact absurd hle (not_le.mpr h5)
  · constructor
    · intro _; exact ⟨lt_of_not_le h4, le_of_not_lt h5⟩
    · intro _; rfl

/-- Witness for the amended C7: a consistent concrete order is accepted. -/
theorem order_total_tolerance_witness :
    (mkOrderModel "o2" "Widget" none 2 (3 / 2) 3 .pending).isOk = true :=
  (order_total_tolerance "o2" "Widget" none 2 (3 / 2) 3 .pending
      (by decide) (by decide) (by norm_num)).mpr ⟨by norm_num, by norm_num⟩

/-- A JSON-ish tool-call argument value. -/
inductive JVal where
  | s (v : String)
  | n (v : Nat)
  deriving Repr, DecidableEq

/-- Parsed tool-call arguments: an ordered key-value mapping. -/
abbrev Args := List (String × JVal)

/-- A tool (function) call result payload: the success flag and optional
error text of the returned dictionary. -/
structure FuncResult where
  success : Bool
  error : Option String := none
  deriving Repr, DecidableEq

/-- One executed function call as recorded in `function_calls`. -/
structure FuncCall where
  name : String
  arguments : Args
  result : FuncResult
  deriving Repr, DecidableEq

/-- The dictionary returned by an agent's `process_message`; keys that
Python leaves absent are modelled by their defaults. -/
structure AgentResult where
  success : Bool
  agent : String
  response : String
  error : Option String := none
  function_calls : List FuncCall := []
  deriving Repr, DecidableEq

/-- Behaviour of a delegated agent call in one turn: it returns a result
dictionary, or raises an exception carrying a message. -/
inductive AgentOutcome where
  | returns (r : AgentResult)
  | raises (e : String)
  deriving Repr, DecidableEq

/-- The mutable orchestrator fields (src/src/agents/orchestrator.py,
lines 12-13). -/
structure OrchState where
  current_agent : Option String
  conversation_state : String
  deriving Repr, DecidableEq

/-- The `orchestrator` metadata dictionary attached to every returned
result. -/
structure OrchMeta where
  selected_agent : Option String
  conversation_state : String
  has_product_context : Option Bool := none
  error : Option String := none
  deriving Repr, DecidableEq

/-- The dictionary returned by `ConversationOrchestrator.process_message`;
keys that Python leaves absent are modelled by their defaults. -/
structure OrchResult where
  success : Bool
  agent : String
  response : String
  error : Option String := none
  function_calls : List FuncCall := []
  handoff_occurred : Bool := false
  handoff_from : Option String := none
  handoff_to : Option String := none
  handoff_suggested : Bool := false
  suggested_handoff_to : Option String := none
  orchestrator : OrchMeta
  deriving Repr, DecidableEq

/-- `ConversationOrchestrator.process_message` (src/src/agents/orchestrator.py,
lines 57-114) as a state-passing function. `conversation_state` is written
right after routing; the delegated agent call is the only step that may
raise, and its behaviour this turn is `orderOutcome` or `ragOutcome`; the
`except` branch builds the synthetic orchestrator failure result. -/
def process_message (st : OrchState) (message : String) (chat_history : List ChatMsg)
    (orderOutcome ragOutcome : AgentOutcome) : OrchResult × OrchState :=
  let selected := determine_agent message chat_history
  let st1 : OrchState :=
    { st with conversation_state :=
        if selected = "order_agent" then "order_processing" else "product_inquiry" }
  match (if selected = "order_agent" then orderOutcome else ragOutcome) with
  | .raises e =>
    ({ success := false, agent := "orchestrator",
       response := "I apologize, but I encountered an error: " ++ e,
       error := some e,
       orchestrator := { selected_agent := none,
                         conversation_state := st1.conversation_state,
                         error := some "orchestrator_error" } }, st1)
  | .returns r =>
    let base : OrchResult :=
      { success := r.success, agent := r.agent, response := r.response,
        error := r.error, function_calls := r.function_calls,
        orchestrator := { selected_agent := some selected,
                          conversation_state := st1.conversation_state,
                          has_product_context := some (has_product_context chat_history) } }
    let result :=
      if selected = "order_agent" then
        if r.success && !r.function_calls.isEmpty
            && r.function_calls.any (fun fc =>
                 fc.name == "create_order" && fc.result.success) then
          { base with handoff_occurred := true, handoff_from := some "rag_agent",
                      handoff_to := some "order_agent" }
        else base
      else
        if should_handoff_to_order_agent message chat_history then
          { base with handoff_suggested := true,
                      suggested_handoff_to := some "order_agent" }
        else base
    (result, { st1 with current_agent := some selected })

/-- C3: when the delegated agent raises, `process_message` still returns a
structured result with `success = false` and `agent = "orchestrator"`,
carrying the error text in both the `error` key and the apologetic
response — no exception escapes the boundary. -/
theorem process_message_catches_errors (st : OrchState) (message : String)
    (chat_history : List ChatMsg) (orderOutcome ragOutcome : AgentOutcome) (e : String)
    (h : (if determine_agent message chat_history = "order_agent"
          then orderOutcome else ragOutcome) = .raises e) :
    (process_message st message chat_history orderOutcome ragOutcome).1.success = false ∧
    (process_message st message chat_history orderOutcome ragOutcome).1.agent
      = "orchestrator" ∧
    (process_message st message chat_history orderOutcome ragOutcome).1.error = some e ∧
    (process_message st message chat_history orderOutcome ragOutcome).1.response
      = "I apologize, but I encountered an error: " ++ e := by
  simp [process_message, h]

/-- Witness for C3: both agents raising on a concrete turn. -/
theorem process_message_catches_errors_witness :
    (process_message ⟨none, "product_inquiry"⟩ "hello" []
        (.raises "boom") (.raises "boom")).1.success = false ∧
    (process_message ⟨none, "product_inquiry"⟩ "hello" []
        (.raises "boom") (.raises "boom")).1.agent = "orchestrator" ∧
    (process_message ⟨none, "product_inquiry"⟩ "hello" []
        (.raises "boom") (.raises "boom")).1.error = some "boom" ∧
    (process_message ⟨none, "product_inquiry"⟩ "hello" []
        (.raises "boom") (.raises "boom")).1.response
      = "I apologize, but I encountered an error: " ++ "boom" :=
  process_message_catches_errors ⟨none, "product_inquiry"⟩ "hello" []
    (.raises "boom") (.raises "boom") "boom" (by decide)

/-- C2 counterexample: entering in state `product_inquiry`, a message routed
to the order agent whose delegation raises leaves `conversation_state`
already switched to `order_processing` — the state was written before the
selected agent's processing completed, and the failed turn does not restore
the entry value. -/
theorem state_update_not_atomic_counterexample :
    (process_message ⟨none, "product_inquiry"⟩ "buy it"
        [⟨"assistant", "the price is $999"⟩] (.raises "boom")
        (.returns ⟨true, "rag_agent", "ok", none, []⟩)).1.success = false ∧
    (process_message ⟨none, "product_inquiry"⟩ "buy it"
        [⟨"assistant", "the price is $999"⟩] (.raises "boom")
        (.returns ⟨true, "rag_agent", "ok", none, []⟩)).2.conversation_state
      = "order_processing" ∧
    (process_message ⟨none, "product_inquiry"⟩ "buy it"
        [⟨"assistant", "the price is $999"⟩] (.raises "boom")
        (.returns ⟨true, "rag_agent", "ok", none, []⟩)).2.conversation_state
      ≠ "product_inquiry" := by
  refine ⟨by decide, by decide, by decide⟩

/-- C2 amended: `conversation_state` is written immediately after routing,
before delegation, so after any turn — failed or not — it reflects the
routed agent rather than the entry value; `current_agent` is written only
at the end of a successful turn and keeps its entry value when the
delegated agent raises. -/
theorem process_message_state_updates (st : OrchState) (message : String)
    (chat_history : List ChatMsg) (orderOutcome ragOutcome : AgentOutcome) :
    ((process_message st message chat_history orderOutcome ragOutcome).2.conversation_state
      = (if determine_agent message chat_history = "order_agent"
         then "order_processing" else "product_inquiry")) ∧
    (∀ e, (if determine_agent message chat_history = "order_agent"
           then orderOutcome else ragOutcome) = .raises e →
      (process_message st message chat_history orderOutcome ragOutcome).2.current_agent
        = st.current_agent) ∧
    (∀ r, (if determine_agent message chat_history = "order_agent"
           then orderOutcome else ragOutcome) = .returns r →
      (process_message st message chat_history orderOutcome ragOutcome).2.current_agent
        = some (determine_agent message chat_history)) := by
  cases h : (if determine_agent message chat_history = "order_agent"
             then orderOutcome else ragOutcome) with
  | raises e =>
    refine ⟨?_, ?_, ?_⟩
    · simp only [process_message, h]
    · intro e2 _; simp only [process_message, h]
    · intro r h2; exact nomatch h2
  | returns r =>
    refine ⟨?_, ?_, ?_⟩
    · simp only [process_message, h]
    · intro e h2; exact nomatch h2
    · intro r2 _; simp only [process_message, h]

/-- Witness for the amended C2: after a failed order-agent turn the
current-agent pointer is unchanged while the state shows the routed agent. -/
theorem process_message_state_updates_witness :
    (process_message ⟨some "rag_agent", "product_inquiry"⟩ "buy it"
        [⟨"assistant", "price $9"⟩] (.raises "x")
        (.returns ⟨true, "rag_agent", "ok", none, []⟩)).2.current_agent
      = some "rag_agent" :=
  (process_message_state_updates ⟨some "rag_agent", "product_inquiry"⟩ "buy it"
      [⟨"assistant", "price $9"⟩] (.raises "x")
      (.returns ⟨true, "rag_agent", "ok", none, []⟩)).2.1 "x" (by decide)

/-- C10: no result returned by `process_message` ever carries
`handoff_suggested = true`: the product-agent branch that sets the flag runs
only when routing did not pick the order agent, and there the same pure
handoff predicate is necessarily false. -/
theorem handoff_suggested_never_set (st : OrchState) (message : String)
    (chat_history : List ChatMsg) (orderOutcome ragOutcome : AgentOutcome) :
    (process_message st message chat_history orderOutcome ragOutcome).1.handoff_suggested
      = false := by
  cases h : (if determine_agent message chat_history = "order_agent"
             then orderOutcome else ragOutcome) with
  | raises e => simp only [process_message, h]
  | returns r =>
    simp only [process_message, h]
    by_cases hsel : determine_agent message chat_history = "order_agent"
    · simp only [hsel, if_true]
      split <;> rfl
    · have hsh : should_handoff_to_order_agent message chat_history = false := by
        cases hx : should_handoff_to_order_agent message chat_history with
        | false => rfl
        | true => exact absurd (route_order_of_handoff message chat_history hx) hsel
      simp [hsel, hsh]

/-- A tool-call request emitted by a model turn. -/
structure ToolCall where
  id : String
  name : String
  arguments : Args
  deriving Repr, DecidableEq

/-- An entry of the running model message list; tool entries carry the
serialized result payload. -/
structure MsgEntry where
  role : String
  tool_call_id : Option String := none
  payload : Option FuncResult := none
  deriving Repr, DecidableEq

/-- The synthetic failure payload built for an unregistered tool name. -/
def unknownFuncResult (name : String) : FuncResult :=
  { success := false, error := some ("Unknown function: " ++ name) }

/-- Python `function_name in self.function_map` / dictionary lookup. -/
def lookupFn (fmap : List (String × (Args → FuncResult))) (name : String) :
    Option (Args → FuncResult) :=
  (fmap.find? (fun p => p.1 == name)).map Prod.snd

/-- The part of the extracted order context used for argument backfilling. -/
structure OrderCtx where
  product_name : Option String
  quantity : Nat
  deriving Repr, DecidableEq

/-- Argument backfilling of `OrderAgent._handle_function_calls`
(src/src/agents/order_agent.py, lines 288-294): only for `create_order`; a
missing `product_name` is filled when the context holds a truthy one, a
missing `quantity` is always filled. -/
def backfillOrderArgs (ctx : OrderCtx) (name : String) (args : Args) : Args :=
  if name == "create_order" then
    let args1 :=
      if (args.find? (fun p => p.1 == "product_name")).isNone then
        match ctx.product_name with
        | some pn => if pn.isEmpty then args else args ++ [("product_name", JVal.s pn)]
        | none => args
      else args
    if (args1.find? (fun p => p.1 == "quantity")).isNone then
      args1 ++ [("quantity", JVal.n ctx.quantity)]
    else args1
  else args

/-- The RAG agent performs no argument backfilling. -/
def backfillNone (_ : String) (args : Args) : Args := args

/-- One iteration of the function-call loop shared by
`OrderAgent._handle_function_calls` (src/src/agents/order_agent.py, lines
284-327) and `RAGAgent._handle_function_calls` (src/src/agents/rag_agent.py,
lines 163-206): dispatch a registered handler, or record the synthetic
unknown-function failure; either way append to the collected results and to
the message list and continue with the next call. -/
def execToolCall (fmap : List (String × (Args → FuncResult)))
    (backfill : String → Args → Args)
    (acc : List FuncCall × List MsgEntry) (tc : ToolCall) :
    List FuncCall × List MsgEntry :=
  let args := backfill tc.name tc.arguments
  match lookupFn fmap tc.name with
  | some f =>
    let r := f args
    (acc.1 ++ [⟨tc.name, args, r⟩], acc.2 ++ [⟨"tool", some tc.id, some r⟩])
  | none =>
    let er := unknownFuncResult tc.name
    (acc.1 ++ [⟨tc.name, args, er⟩], acc.2 ++ [⟨"tool", some tc.id, some er⟩])

/-- The result of one agent turn that executed function calls. -/
structure TurnResult where
  success : Bool
  agent : String
  response : String
  function_calls : List FuncCall
  error : Option String := none
  deriving Repr, DecidableEq

/-- `_handle_function_calls` of either agent: append the assistant message
carrying the tool calls, execute every requested call in order, then issue
the final completion whose reply text is `finalResponse`, returning a
successful turn result together with the grown message list. -/
def handle_function_calls (agentName : String)
    (fmap : List (String × (Args → FuncResult)))
    (backfill : String → Args → Args)
    (messages : List MsgEntry) (toolCalls : List ToolCall)
    (finalResponse : String) : TurnResult × List MsgEntry :=
  let msgs0 := messages ++ [⟨"assistant", none, none⟩]
  let out := toolCalls.foldl (execToolCall fmap backfill) ([], msgs0)
  ({ success := true, agent := agentName, response := finalResponse,
     function_calls := out.1 }, out.2)

/-- The record collected for one requested call. -/
def toolCallRecord (fmap : List (String × (Args → FuncResult)))
    (backfill : String → Args → Args) (tc : ToolCall) : FuncCall :=
  let args := backfill tc.name tc.arguments
  match lookupFn fmap tc.name with
  | some f => ⟨tc.name, args, f args⟩
  | none => ⟨tc.name, args, unknownFuncResult tc.name⟩

/-- The tool message appended for one requested call. -/
def toolCallMsg (fmap : List (String × (Args → FuncResult)))
    (backfill : String → Args → Args) (tc : ToolCall) : MsgEntry :=
  ⟨"tool", some tc.id, some (toolCallRecord fmap backfill tc).result⟩

/-- The loop is a map over the requested calls: nothing is dropped,
reordered, or aborted. -/
theorem foldl_execToolCall (fmap : List (String × (Args → FuncResult)))
    (backfill : String → Args → Args) (tcs : List ToolCall)
    (acc : List FuncCall × List MsgEntry) :
    tcs.foldl (execToolCall fmap backfill) acc
      = (acc.1 ++ tcs.map (toolCallRecord fmap backfill),
         acc.2 ++ tcs.map (toolCallMsg fmap backfill)) := by
  induction tcs generalizing acc with
  | nil => simp
  | cons tc rest ih =>
    rw [List.foldl_cons, ih]
    cases hl : lookupFn fmap tc.name with
    | some f =>
      simp [execToolCall, toolCallRecord, toolCallMsg, hl]
    | none =>
      simp [execToolCall, toolCallRecord, toolCallMsg, hl]

/-- The collected record keeps the requested call's name. -/
theorem toolCallRecord_name (fmap : List (String × (Args → FuncResult)))
    (backfill : String → Args → Args) (tc : ToolCall) :
    (toolCallRecord fmap backfill tc).name = tc.name := by
  unfold toolCallRecord
  cases lookupFn fmap tc.name <;> rfl

/-- Behaviour of `_handle_function_calls` on any unregistered call in the
request list, for an arbitrary function map. -/
theorem handle_function_calls_unknown (agentName : String)
    (fmap : List (String × (Args → FuncResult)))
    (backfill : String → Args → Args) (messages : List MsgEntry)
    (toolCalls : List ToolCall) (finalResponse : String) (tc : ToolCall)
    (htc : tc ∈ toolCalls) (hnone : lookupFn fmap tc.name = none) :
    (handle_function_calls agentName fmap backfill messages toolCalls
        finalResponse).1.success = true ∧
    (handle_function_calls agentName fmap backfill messages toolCalls
        finalResponse).1.function_calls.map FuncCall.name
      = toolCalls.map ToolCall.name ∧
    (⟨tc.name, backfill tc.name tc.arguments, unknownFuncResult tc.name⟩ : FuncCall)
      ∈ (handle_function_calls agentName fmap backfill messages toolCalls
          finalResponse).1.function_calls ∧
    (⟨"tool", some tc.id, some (unknownFuncResult tc.name)⟩ : MsgEntry)
      ∈ (handle_function_calls agentName fmap backfill messages toolCalls
          finalResponse).2 := by
  have hout : handle_function_calls agentName fmap backfill messages toolCalls finalResponse
      = ({ success := true, agent := agentName, response := finalResponse,
           function_calls := toolCalls.map (toolCallRecord fmap backfill) },
         (messages ++ [⟨"assistant", none, none⟩])
           ++ toolCalls.map (toolCallMsg fmap backfill)) := by
    unfold handle_function_calls
    simp only [foldl_execToolCall]
    simp
  have hrec : toolCallRecord fmap backfill tc
      = ⟨tc.name, backfill tc.name tc.arguments, unknownFuncResult tc.name⟩ := by
    unfold toolCallRecord
    rw [hnone]
  refine ⟨by rw [hout], ?_, ?_, ?_⟩
  · rw [hout]
    simp only [List.map_map]
    exact List.map_congr_left (fun x _ => toolCallRecord_name fmap backfill x)
  · rw [hout]
    exact hrec ▸ List.mem_map_of_mem (toolCallRecord fmap backfill) htc
  · rw [hout]
    refine List.mem_append_right _ ?_
    have : toolCallMsg fmap backfill tc
        = ⟨"tool", some tc.id, some (unknownFuncResult tc.name)⟩ := by
      unfold toolCallMsg
      rw [hrec]
    exact this ▸ List.mem_map_of_mem (toolCallMsg fmap backfill) htc

/-- The order agent's `function_map` (src/src/agents/order_agent.py,
lines 30-35), the four handlers abstract. -/
def orderFunctionMap (createOrderFn getOrderStatusFn validateOrderDetailsFn
    cancelOrderFn : Args → FuncResult) : List (String × (Args → FuncResult)) :=
  [("create_order", createOrderFn), ("get_order_status", getOrderStatusFn),
   ("validate_order_details", validateOrderDetailsFn), ("cancel_order", cancelOrderFn)]

/-- The RAG agent's `function_map` (src/src/agents/rag_agent.py,
lines 23-28), the four handlers abstract. -/
def ragFunctionMap (searchProductsFn getProductDetailsFn checkProductAvailabilityFn
    getProductsByCategoryFn : Args → FuncResult) : List (String × (Args → FuncResult)) :=
  [("search_products", searchProductsFn), ("get_product_details", getProductDetailsFn),
   ("check_product_availability", checkProductAvailabilityFn),
   ("get_products_by_category", getProductsByCategoryFn)]

/-- C9: in both the order agent's and the RAG agent's function-call loop, a
requested call whose name is not registered does not abort the turn: its
record carries the synthetic payload `{success := false, error := "Unknown
function: <name>"}`, the same payload is appended to the model message
list, every requested call is still executed in order, and the returned
turn result is successful. -/
theorem unknown_function_is_nonfatal (createOrderFn getOrderStatusFn
    validateOrderDetailsFn cancelOrderFn searchProductsFn getProductDetailsFn
    checkProductAvailabilityFn getProductsByCategoryFn : Args → FuncResult)
    (ctx : OrderCtx) (messages : List MsgEntry) (toolCalls : List ToolCall)
    (finalResponse : String) (tc : ToolCall) (htc : tc ∈ toolCalls) :
    (lookupFn (orderFunctionMap createOrderFn getOrderStatusFn
        validateOrderDetailsFn cancelOrderFn) tc.name = none →
      (handle_function_calls "order_agent"
          (orderFunctionMap createOrderFn getOrderStatusFn validateOrderDetailsFn
            cancelOrderFn) (backfillOrderArgs ctx) messages toolCalls
          finalResponse).1.success = true ∧
      (handle_function_calls "order_agent"
          (orderFunctionMap createOrderFn getOrderStatusFn validateOrderDetailsFn
            cancelOrderFn) (backfillOrderArgs ctx) messages toolCalls
          finalResponse).1.function_calls.map FuncCall.name
        = toolCalls.map ToolCall.name ∧
      (⟨tc.name, backfillOrderArgs ctx tc.name tc.arguments,
          unknownFuncResult tc.name⟩ : FuncCall)
        ∈ (handle_function_calls "order_agent"
            (orderFunctionMap createOrderFn getOrderStatusFn validateOrderDetailsFn
              cancelOrderFn) (backfillOrderArgs ctx) messages toolCalls
            finalResponse).1.function_calls ∧
      (⟨"tool", some tc.id, some (unknownFuncResult tc.name)⟩ : MsgEntry)
        ∈ (handle_function_calls "order_agent"
            (orderFunctionMap createOrderFn getOrderStatusFn validateOrderDetailsFn
              cancelOrderFn) (backfillOrderArgs ctx) messages toolCalls
            finalResponse).2) ∧
    (lookupFn (ragFunctionMap searchProductsFn getProductDetailsFn
        checkProductAvailabilityFn getProductsByCategoryFn) tc.name = none →
      (handle_function_calls "rag_agent"
          (ragFunctionMap searchProductsFn getProductDetailsFn
            checkProductAvailabilityFn getProductsByCategoryFn) backfillNone
          messages toolCalls finalResponse).1.success = true ∧
      (handle_function_calls "rag_agent"
          (ragFunctionMap searchProductsFn getProductDetailsFn
            checkProductAvailabilityFn getProductsByCategoryFn) backfillNone
          messages toolCalls finalResponse).1.function_calls.map FuncCall.name
        = toolCalls.map ToolCall.name ∧
      (⟨tc.name, backfillNone tc.name tc.arguments,
          unknownFuncResult tc.name⟩ : FuncCall)
        ∈ (handle_function_calls "rag_agent"
            (ragFunctionMap searchProductsFn getProductDetailsFn
              checkProductAvailabilityFn getProductsByCategoryFn) backfillNone
            messages toolCalls finalResponse).1.function_calls ∧
      (⟨"tool", some tc.id, some (unknownFuncResult tc.name)⟩ : MsgEntry)
        ∈ (handle_function_calls "rag_agent"
            (ragFunctionMap searchProductsFn getProductDetailsFn
              checkProductAvailabilityFn getProductsByCategoryFn) backfillNone
            messages toolCalls finalResponse).2) :=
  ⟨fun hnone => handle_function_calls_unknown "order_agent" _ (backfillOrderArgs ctx)
      messages toolCalls finalResponse tc htc hnone,
   fun hnone => handle_function_calls_unknown "rag_agent" _ backfillNone
      messages toolCalls finalResponse tc htc hnone⟩

/-- Witness for C9: a single request of an unregistered tool name, with
trivially succeeding handlers. -/
theorem unknown_function_is_nonfatal_witness :
    ((handle_function_calls "order_agent"
        (orderFunctionMap (fun _ => ⟨true, none⟩) (fun _ => ⟨true, none⟩)
          (fun _ => ⟨true, none⟩) (fun _ => ⟨true, none⟩))
        (backfillOrderArgs ⟨none, 1⟩) [] [⟨"call1", "mystery_fn", []⟩]
        "done").1.success = true ∧
      (handle_function_calls "order_agent"
        (orderFunctionMap (fun _ => ⟨true, none⟩) (fun _ => ⟨true, none⟩)
          (fun _ => ⟨true, none⟩) (fun _ => ⟨true, none⟩))
        (backfillOrderArgs ⟨none, 1⟩) [] [⟨"call1", "mystery_fn", []⟩]
        "done").1.function_calls.map FuncCall.name
        = [⟨"call1", "mystery_fn", []⟩].map ToolCall.name ∧
      (⟨"mystery_fn",
          backfillOrderArgs ⟨none, 1⟩ "mystery_fn" [],
          unknownFuncResult "mystery_fn"⟩ : FuncCall)
        ∈ (handle_function_calls "order_agent"
            (orderFunctionMap (fun _ => ⟨true, none⟩) (fun _ => ⟨true, none⟩)
              (fun _ => ⟨true, none⟩) (fun _ => ⟨true, none⟩))
            (backfillOrderArgs ⟨none, 1⟩) [] [⟨"call1", "mystery_fn", []⟩]
            "done").1.function_calls ∧
      (⟨"tool", some "call1", some (unknownFuncResult "mystery_fn")⟩ : MsgEntry)
        ∈ (handle_function_calls "order_agent"
            (orderFunctionMap (fun _ => ⟨true, none⟩) (fun _ => ⟨true, none⟩)
              (fun _ => ⟨true, none⟩) (fun _ => ⟨true, none⟩))
            (backfillOrderArgs ⟨none, 1⟩) [] [⟨"call1", "mystery_fn", []⟩]
            "done").2) ∧
    ((handle_function_calls "rag_agent"
        (ragFunctionMap (fun _ => ⟨true, none⟩) (fun _ => ⟨true, none⟩)
          (fun _ => ⟨true, none⟩) (fun _ => ⟨true, none⟩)) backfillNone
        [] [⟨"call1", "mystery_fn", []⟩] "done").1.success = true ∧
      (handle_function_calls "rag_agent"
        (ragFunctionMap (fun _ => ⟨true, none⟩) (fun _ => ⟨true, none⟩)
          (fun _ => ⟨true, none⟩) (fun _ => ⟨true, none⟩)) backfillNone
        [] [⟨"call1", "mystery_fn", []⟩] "done").1.function_calls.map FuncCall.name
        = [⟨"call1", "mystery_fn", []⟩].map ToolCall.name ∧
      (⟨"mystery_fn", backfillNone "mystery_fn" [],
          unknownFuncResult "mystery_fn"⟩ : FuncCall)
        ∈ (handle_function_calls "rag_agent"
            (ragFunctionMap (fun _ => ⟨true, none⟩) (fun _ => ⟨true, none⟩)
              (fun _ => ⟨true, none⟩) (fun _ => ⟨true, none⟩)) backfillNone
            [] [⟨"call1", "mystery_fn", []⟩] "done").1.function_calls ∧
      (⟨"tool", some "call1", some (unknownFuncResult "mystery_fn")⟩ : MsgEntry)
        ∈ (handle_function_calls "rag_agent"
            (ragFunctionMap (fun _ => ⟨true, none⟩) (fun _ => ⟨true, none⟩)
              (fun _ => ⟨true, none⟩) (fun _ => ⟨true, none⟩)) backfillNone
            [] [⟨"call1", "mystery_fn", []⟩] "done").2) :=
  let T := unknown_function_is_nonfatal (fun _ => ⟨true, none⟩) (fun _ => ⟨true, none⟩)
    (fun _ => ⟨true, none⟩) (fun _ => ⟨true, none⟩) (fun _ => ⟨true, none⟩)
    (fun _ => ⟨true, none⟩) (fun _ => ⟨true, none⟩) (fun _ => ⟨true, none⟩)
    ⟨none, 1⟩ [] [⟨"call1", "mystery_fn", []⟩] "done" ⟨"call1", "mystery_fn", []⟩
    (List.mem_singleton.mpr rfl)
  ⟨T.1 rfl, T.2 rfl⟩

example : detect_order_intent "I want to BUY this" = true := by decide
example : detect_order_intent "hello there" = false := by decide
example : has_product_context [⟨"assistant", "the price is high"⟩] = true := by decide
example : should_handoff_to_order_agent "buy now" [⟨"assistant", "price: $5"⟩] = true := by decide
example : determine_agent "hello" [] = "rag_agent" := by decide
example : determine_agent "what is the status of ORD-12345678-AbCdEf12" [] = "order_agent" := by decide
example : containsOrderIdShape "see ORD-12345678-AbCdEf12 now" = true := by decide

end EcomChatbot
